import Mathlib

/-!
# Verification of the SnapMap Azure blob upload utility

Shallow embedding of `uploadToAzure` (the blob-upload utility of the SnapMap
repository) and proofs about its contract.

The source is a single async JavaScript function:

```
const CONTAINER_NAME = "snapmap-blob"

async function uploadToAzure(buffer, fileName) {
    if(!buffer || !fileName)
        throw new error("Buffer and Filename are required")
    if(!process.env.AZURE_STORAGE_CONNECTION)
        throw new error("Connection string is required")
    const blobServiceClient = BlobServiceClient.fromConnectionString(
        process.env.AZURE_STORAGE_CONNECTION)
    const containerClient = blobServiceClient.getContainerClient(CONTAINER_NAME)
    await containerClient.createIfNotExists({ access: "blob" })
    const blockBlobClient = containerClient.getBlockBlobClient(fileName);
    await blockBlobClient.uploadData(buffer);
    return blockBlobClient.url
}
```

The embedding models:
* JavaScript truthiness of the two parameters and the environment variable;
* the semantics of the statement `throw new error(msg)` — note the lowercase
  `error`: in JavaScript this identifier is unbound (the global constructor is
  `Error`), so evaluating `new error(msg)` raises
  `ReferenceError: error is not defined` and the string `msg` never becomes
  part of a thrown value;
* the external Azure SDK as a parameter (`Service σ`): a state type `σ` for
  the remote storage account, outcome functions for the two network calls
  (`createIfNotExists`, `uploadData`), and an endpoint derived from the
  connection string;
* an execution trace of the SDK operations performed, in order, so that
  "before any network access", call ordering, and single-attempt properties
  can be stated.
-/

/-- The fixed container name, `const CONTAINER_NAME = "snapmap-blob"`. -/
def CONTAINER_NAME : String := "snapmap-blob"

/-- The `buffer` parameter as passed at a JavaScript call site: either absent
(`undefined`/`null`, which are falsy) or a `Buffer` object holding bytes. -/
abbrev BufferArg := Option (List Nat)

/-- JavaScript truthiness of the `buffer` parameter: `undefined`/`null` are
falsy; a `Buffer` object is truthy even when it holds zero bytes (all objects
are truthy in JavaScript). -/
def bufferTruthy : BufferArg → Bool
  | none => false
  | some _ => true

/-- JavaScript truthiness of a string-or-undefined value (the `fileName`
parameter and the environment variable): `undefined` is falsy, and so is the
empty string. -/
def strTruthy : Option String → Bool
  | none => false
  | some s => !(s == "")

/-- A JavaScript exception value, as observed by the caller of
`uploadToAzure` (the async function rejects with it). -/
inductive JsError where
  /-- A `ReferenceError` with its message. -/
  | referenceError (message : String)
  /-- A failure coming from an awaited Azure SDK call, carrying the SDK's
  error payload unchanged. -/
  | sdkError (payload : String)
deriving DecidableEq, Repr

/-- Semantics of the source statement `throw new error(msg)`: the identifier
`error` is unbound in JavaScript (the global constructor is `Error`, capital
E), so evaluating `new error(msg)` itself throws
`ReferenceError: error is not defined`. The argument `msg` is never attached
to any thrown value. -/
def throwNewError (_msg : String) : JsError :=
  .referenceError "error is not defined"

/-- Process environment: the single variable the function reads. -/
structure Env where
  AZURE_STORAGE_CONNECTION : Option String
deriving DecidableEq, Repr

/-- One external SDK operation performed by `uploadToAzure`, recorded in
program order. -/
inductive Event where
  /-- `BlobServiceClient.fromConnectionString(conn)` — local client
  construction. -/
  | createServiceClient (conn : String)
  /-- `blobServiceClient.getContainerClient(container)` — local client
  construction. -/
  | getContainerClient (container : String)
  /-- `await containerClient.createIfNotExists({access})` — a network round
  trip. -/
  | createIfNotExists (container : String) (access : String)
  /-- `containerClient.getBlockBlobClient(name)` — local client
  construction. -/
  | getBlockBlobClient (name : String)
  /-- `await blockBlobClient.uploadData(bytes)` — a network round trip. -/
  | uploadData (name : String) (bytes : List Nat)
deriving DecidableEq, Repr

/-- Whether an SDK operation involves network access. Only the two awaited
calls (`createIfNotExists`, `uploadData`) reach the network; the three client
constructors are local. -/
def Event.isNetwork : Event → Bool
  | .createIfNotExists _ _ => true
  | .uploadData _ _ => true
  | _ => false

/-- The external Azure storage service, abstracted: `σ` is the state of the
remote storage account; each network call either fails with an SDK error
payload or succeeds with the updated remote state. `endpointOf` is the
account endpoint encoded in a connection string. -/
structure Service (σ : Type) where
  endpointOf : String → String
  createIfNotExists : σ → String → String → Except String σ
  uploadData : σ → String → String → List Nat → Except String σ

/-- Modelled from the spec: `BlockBlobClient.url` of the external Azure SDK
(the SDK is not part of this repository) — "the publicly addressable URL" of
the blob, formed from the account endpoint, the container name and the blob
name. -/
def blobUrl (endpoint container name : String) : String :=
  endpoint ++ "/" ++ container ++ "/" ++ name

/-- Outcome of one invocation of `uploadToAzure`: the settled value of the
returned promise (`.ok url` on fulfilment, `.error e` on rejection), the
ordered trace of SDK operations performed, and the final remote-storage
state. -/
structure RunResult (σ : Type) where
  result : Except JsError String
  trace : List Event
  state : σ
deriving Repr

/-- Lines 13–25 of the source, the part after the two guards: create the
service client from the connection string, get the container client, await
`createIfNotExists({access: "blob"})`, get the block-blob client, await
`uploadData(buffer)`, return `blockBlobClient.url`. Each awaited call either
rejects (its SDK error propagates to the caller as the function's own
rejection, unmodified) or resolves with the new remote state. -/
def uploadBody {σ : Type} (svc : Service σ) (st : σ) (conn : String)
    (bytes : List Nat) (name : String) : RunResult σ :=
  match svc.createIfNotExists st CONTAINER_NAME "blob" with
  | .error e =>
      ⟨.error (.sdkError e),
       [.createServiceClient conn, .getContainerClient CONTAINER_NAME,
        .createIfNotExists CONTAINER_NAME "blob"], st⟩
  | .ok st₁ =>
      match svc.uploadData st₁ CONTAINER_NAME name bytes with
      | .error e =>
          ⟨.error (.sdkError e),
           [.createServiceClient conn, .getContainerClient CONTAINER_NAME,
            .createIfNotExists CONTAINER_NAME "blob", .getBlockBlobClient name,
            .uploadData name bytes], st₁⟩
      | .ok st₂ =>
          ⟨.ok (blobUrl (svc.endpointOf conn) CONTAINER_NAME name),
           [.createServiceClient conn, .getContainerClient CONTAINER_NAME,
            .createIfNotExists CONTAINER_NAME "blob", .getBlockBlobClient name,
            .uploadData name bytes], st₂⟩

/-- Shallow embedding of `async function uploadToAzure(buffer, fileName)`,
parameterised by the external service `svc`, the process environment `env`
and the initial remote-storage state `st`. Follows the source line by line:
the two truthiness guards with their `throw new error(...)` statements, then
the SDK call sequence of `uploadBody`. -/
def uploadToAzure {σ : Type} (svc : Service σ) (env : Env) (st : σ)
    (buffer : BufferArg) (fileName : Option String) : RunResult σ :=
  if !(bufferTruthy buffer) || !(strTruthy fileName) then
    ⟨.error (throwNewError "Buffer and Filename are required"), [], st⟩
  else if !(strTruthy env.AZURE_STORAGE_CONNECTION) then
    ⟨.error (throwNewError "Connection string is required"), [], st⟩
  else
    uploadBody svc st (env.AZURE_STORAGE_CONNECTION.getD "")
      (buffer.getD []) (fileName.getD "")

/-! ## A concrete always-available storage service

Modelled from the spec: Azure Blob Storage's own behaviour (owned by the
external service, not by this repository) — `createIfNotExists` is an
idempotent create-if-absent on the set of containers, and `uploadData`
stores the bytes under `(container, name)`, overwriting any existing object
of the same name (last write wins). Retrieval returns the most recently
written bytes for the name. -/

/-- State of the remote storage account: the existing containers and the
stored blobs, most recent write first. -/
structure StorageState where
  containers : List String
  blobs : List ((String × String) × List Nat)
deriving DecidableEq, Repr

/-- Create-if-absent for a container. -/
def StorageState.createContainer (st : StorageState) (c : String) : StorageState :=
  if c ∈ st.containers then st
  else { st with containers := c :: st.containers }

/-- Store bytes under `(container, name)`; the newest write shadows older
ones. -/
def StorageState.putBlob (st : StorageState) (c n : String) (b : List Nat) :
    StorageState :=
  { st with blobs := ((c, n), b) :: st.blobs }

/-- Retrieve the current bytes of the blob `(container, name)`. -/
def StorageState.getBlob (st : StorageState) (c n : String) : Option (List Nat) :=
  (st.blobs.find? (fun e => e.1 == (c, n))).map (·.2)

/-- The Azure service with every call succeeding, acting on `StorageState`. -/
def azureService (endpointOf : String → String) : Service StorageState where
  endpointOf := endpointOf
  createIfNotExists st c _access := .ok (st.createContainer c)
  uploadData st c n b := .ok (st.putBlob c n b)

/-- A test double whose container-creation call always fails. -/
def failingCreateService : Service Unit where
  endpointOf := id
  createIfNotExists _ _ _ := .error "create failed"
  uploadData _ _ _ _ := .error "upload failed"

/-- A test double whose container-creation call succeeds and whose upload
call always fails. -/
def failingUploadService : Service Unit where
  endpointOf := id
  createIfNotExists _ _ _ := .ok ()
  uploadData _ _ _ _ := .error "upload failed"

/-- Recognises the container-creation network call in a trace. -/
def Event.isCreateContainer : Event → Bool
  | .createIfNotExists _ _ => true
  | _ => false

/-- Recognises the blob-upload network call in a trace. -/
def Event.isUpload : Event → Bool
  | .uploadData _ _ => true
  | _ => false

/-! ## Helper lemmas -/

theorem uploadToAzure_guard_fail {σ : Type} (svc : Service σ) (env : Env) (st : σ)
    (buffer : BufferArg) (fileName : Option String)
    (h : bufferTruthy buffer = false ∨ strTruthy fileName = false) :
    uploadToAzure svc env st buffer fileName =
      ⟨.error (throwNewError "Buffer and Filename are required"), [], st⟩ := by
  unfold uploadToAzure
  rcases h with h | h <;> simp [h]

theorem uploadToAzure_env_fail {σ : Type} (svc : Service σ) (env : Env) (st : σ)
    (buffer : BufferArg) (fileName : Option String)
    (hb : bufferTruthy buffer = true) (hf : strTruthy fileName = true)
    (he : strTruthy env.AZURE_STORAGE_CONNECTION = false) :
    uploadToAzure svc env st buffer fileName =
      ⟨.error (throwNewError "Connection string is required"), [], st⟩ := by
  unfold uploadToAzure
  simp [hb, hf, he]

theorem uploadToAzure_valid_eq {σ : Type} (svc : Service σ) (env : Env) (st : σ)
    (buffer : BufferArg) (fileName : Option String)
    (hb : bufferTruthy buffer = true) (hf : strTruthy fileName = true)
    (he : strTruthy env.AZURE_STORAGE_CONNECTION = true) :
    uploadToAzure svc env st buffer fileName =
      uploadBody svc st (env.AZURE_STORAGE_CONNECTION.getD "")
        (buffer.getD []) (fileName.getD "") := by
  unfold uploadToAzure
  simp [hb, hf, he]

theorem uploadBody_create_error {σ : Type} (svc : Service σ) (st : σ)
    (conn : String) (bytes : List Nat) (name : String) (e : String)
    (h : svc.createIfNotExists st CONTAINER_NAME "blob" = .error e) :
    uploadBody svc st conn bytes name =
      ⟨.error (.sdkError e),
       [.createServiceClient conn, .getContainerClient CONTAINER_NAME,
        .createIfNotExists CONTAINER_NAME "blob"], st⟩ := by
  unfold uploadBody
  rw [h]

theorem uploadBody_upload_error {σ : Type} (svc : Service σ) (st st₁ : σ)
    (conn : String) (bytes : List Nat) (name : String) (e : String)
    (h₁ : svc.createIfNotExists st CONTAINER_NAME "blob" = .ok st₁)
    (h₂ : svc.uploadData st₁ CONTAINER_NAME name bytes = .error e) :
    uploadBody svc st conn bytes name =
      ⟨.error (.sdkError e),
       [.createServiceClient conn, .getContainerClient CONTAINER_NAME,
        .createIfNotExists CONTAINER_NAME "blob", .getBlockBlobClient name,
        .uploadData name bytes], st₁⟩ := by
  unfold uploadBody
  simp only [h₁, h₂]

theorem uploadBody_ok {σ : Type} (svc : Service σ) (st st₁ st₂ : σ)
    (conn : String) (bytes : List Nat) (name : String)
    (h₁ : svc.createIfNotExists st CONTAINER_NAME "blob" = .ok st₁)
    (h₂ : svc.uploadData st₁ CONTAINER_NAME name bytes = .ok st₂) :
    uploadBody svc st conn bytes name =
      ⟨.ok (blobUrl (svc.endpointOf conn) CONTAINER_NAME name),
       [.createServiceClient conn, .getContainerClient CONTAINER_NAME,
        .createIfNotExists CONTAINER_NAME "blob", .getBlockBlobClient name,
        .uploadData name bytes], st₂⟩ := by
  unfold uploadBody
  simp only [h₁, h₂]

theorem uploadToAzure_ok_inv {σ : Type} (svc : Service σ) (env : Env) (st : σ)
    (buffer : BufferArg) (fileName : Option String) (u : String)
    (h : (uploadToAzure svc env st buffer fileName).result = .ok u) :
    bufferTruthy buffer = true ∧ strTruthy fileName = true ∧
    strTruthy env.AZURE_STORAGE_CONNECTION = true ∧
    u = blobUrl (svc.endpointOf (env.AZURE_STORAGE_CONNECTION.getD ""))
          CONTAINER_NAME (fileName.getD "") ∧
    ∃ stf, uploadToAzure svc env st buffer fileName =
      ⟨.ok u,
       [.createServiceClient (env.AZURE_STORAGE_CONNECTION.getD ""),
        .getContainerClient CONTAINER_NAME,
        .createIfNotExists CONTAINER_NAME "blob",
        .getBlockBlobClient (fileName.getD ""),
        .uploadData (fileName.getD "") (buffer.getD [])], stf⟩ := by
  cases hb : bufferTruthy buffer
  · rw [uploadToAzure_guard_fail svc env st buffer fileName (Or.inl hb)] at h
    exact absurd h (by simp)
  · cases hf : strTruthy fileName
    · rw [uploadToAzure_guard_fail svc env st buffer fileName (Or.inr hf)] at h
      exact absurd h (by simp)
    · cases he : strTruthy env.AZURE_STORAGE_CONNECTION
      · rw [uploadToAzure_env_fail svc env st buffer fileName hb hf he] at h
        exact absurd h (by simp)
      · rw [uploadToAzure_valid_eq svc env st buffer fileName hb hf he] at h ⊢
        rcases hc : svc.createIfNotExists st CONTAINER_NAME "blob" with e | st₁
        · rw [uploadBody_create_error svc st _ _ _ e hc] at h
          exact absurd h (by simp)
        · rcases hu : svc.uploadData st₁ CONTAINER_NAME (fileName.getD "")
              (buffer.getD []) with e | st₂
          · rw [uploadBody_upload_error svc st st₁ _ _ _ e hc hu] at h
            exact absurd h (by simp)
          · rw [uploadBody_ok svc st st₁ st₂ _ _ _ hc hu] at h
            simp only [Except.ok.injEq] at h
            subst h
            exact ⟨rfl, rfl, rfl, rfl, st₂,
              uploadBody_ok svc st st₁ st₂ _ _ _ hc hu⟩

/-! ## Claims -/

/-- C1: for every call to `uploadToAzure` where `buffer` is falsy or
`fileName` is falsy (empty/undefined), the call fails by throwing, and the
trace of SDK operations is empty — in particular no network access occurs:
no service client is created, no container creation, no upload — and the
remote state is untouched. -/
theorem C1_missing_input_fails_before_network {σ : Type} (svc : Service σ)
    (env : Env) (st : σ) (buffer : BufferArg) (fileName : Option String)
    (h : bufferTruthy buffer = false ∨ strTruthy fileName = false) :
    (∃ e, (uploadToAzure svc env st buffer fileName).result = .error e) ∧
    (uploadToAzure svc env st buffer fileName).trace = [] ∧
    (uploadToAzure svc env st buffer fileName).state = st := by
  rw [uploadToAzure_guard_fail svc env st buffer fileName h]
  exact ⟨⟨_, rfl⟩, rfl, rfl⟩

theorem C1_missing_input_fails_before_network_witness :
    (∃ e, (uploadToAzure (azureService id) ⟨some "conn"⟩
        (⟨[], []⟩ : StorageState) none (some "photo.png")).result = .error e) ∧
    (uploadToAzure (azureService id) ⟨some "conn"⟩ (⟨[], []⟩ : StorageState)
      none (some "photo.png")).trace = [] ∧
    (uploadToAzure (azureService id) ⟨some "conn"⟩ (⟨[], []⟩ : StorageState)
      none (some "photo.png")).state = ⟨[], []⟩ :=
  C1_missing_input_fails_before_network (azureService id) ⟨some "conn"⟩
    ⟨[], []⟩ none (some "photo.png") (Or.inl rfl)

/-- C2: for every call to `uploadToAzure` with truthy `buffer` and
`fileName` but a falsy `AZURE_STORAGE_CONNECTION` environment variable
(absent or empty), the call fails by throwing with an empty SDK trace — no
network access occurs — and the remote state is untouched. -/
theorem C2_missing_connection_fails_before_network {σ : Type} (svc : Service σ)
    (env : Env) (st : σ) (buffer : BufferArg) (fileName : Option String)
    (hb : bufferTruthy buffer = true) (hf : strTruthy fileName = true)
    (he : strTruthy env.AZURE_STORAGE_CONNECTION = false) :
    (∃ e, (uploadToAzure svc env st buffer fileName).result = .error e) ∧
    (uploadToAzure svc env st buffer fileName).trace = [] ∧
    (uploadToAzure svc env st buffer fileName).state = st := by
  rw [uploadToAzure_env_fail svc env st buffer fileName hb hf he]
  exact ⟨⟨_, rfl⟩, rfl, rfl⟩

theorem C2_missing_connection_fails_before_network_witness :
    (∃ e, (uploadToAzure (azureService id) ⟨none⟩ (⟨[], []⟩ : StorageState)
        (some [0]) (some "photo.png")).result = .error e) ∧
    (uploadToAzure (azureService id) ⟨none⟩ (⟨[], []⟩ : StorageState)
      (some [0]) (some "photo.png")).trace = [] ∧
    (uploadToAzure (azureService id) ⟨none⟩ (⟨[], []⟩ : StorageState)
      (some [0]) (some "photo.png")).state = ⟨[], []⟩ :=
  C2_missing_connection_fails_before_network (azureService id) ⟨none⟩
    ⟨[], []⟩ (some [0]) (some "photo.png") rfl (by decide) rfl

/-- C3 (counterexample / failing input): the claim says the precondition
error carries the descriptive message "Buffer and Filename are required"
(resp. "Connection string is required"). In the code both throw statements
read `throw new error(...)` with a lowercase `error`, an unbound identifier
(the JavaScript constructor is `Error`), so the value actually thrown is
`ReferenceError: error is not defined` and neither descriptive message is
ever attached to a thrown value. -/
theorem C3_thrown_value_lacks_descriptive_message :
    (uploadToAzure (azureService id) ⟨some "conn"⟩ (⟨[], []⟩ : StorageState)
        none (some "photo.png")).result =
      .error (.referenceError "error is not defined") ∧
    (uploadToAzure (azureService id) ⟨none⟩ (⟨[], []⟩ : StorageState)
        (some [1]) (some "photo.png")).result =
      .error (.referenceError "error is not defined") ∧
    "error is not defined" ≠ "Buffer and Filename are required" ∧
    "error is not defined" ≠ "Connection string is required" :=
  ⟨rfl, rfl, by decide, by decide⟩

/-- C9: the buffer/fileName guard precedes the connection-string guard:
whenever `buffer` or `fileName` is falsy, the whole run is independent of
the environment (it is never consulted), the raised error is the one thrown
at the buffer/fileName check, and no SDK operation happens. -/
theorem C9_buffer_check_precedes_env_check {σ : Type} (svc : Service σ)
    (env env' : Env) (st : σ) (buffer : BufferArg) (fileName : Option String)
    (h : bufferTruthy buffer = false ∨ strTruthy fileName = false) :
    uploadToAzure svc env st buffer fileName =
      uploadToAzure svc env' st buffer fileName ∧
    (uploadToAzure svc env st buffer fileName).result =
      .error (throwNewError "Buffer and Filename are required") ∧
    (uploadToAzure svc env st buffer fileName).trace = [] := by
  rw [uploadToAzure_guard_fail svc env st buffer fileName h,
      uploadToAzure_guard_fail svc env' st buffer fileName h]
  exact ⟨rfl, rfl, rfl⟩

theorem C9_buffer_check_precedes_env_check_witness :
    uploadToAzure (azureService id) ⟨none⟩ (⟨[], []⟩ : StorageState)
        none (some "a.png") =
      uploadToAzure (azureService id) ⟨some "conn"⟩ (⟨[], []⟩ : StorageState)
        none (some "a.png") ∧
    (uploadToAzure (azureService id) ⟨none⟩ (⟨[], []⟩ : StorageState)
        none (some "a.png")).result =
      .error (throwNewError "Buffer and Filename are required") ∧
    (uploadToAzure (azureService id) ⟨none⟩ (⟨[], []⟩ : StorageState)
        none (some "a.png")).trace = [] :=
  C9_buffer_check_precedes_env_check (azureService id) ⟨none⟩ ⟨some "conn"⟩
    ⟨[], []⟩ none (some "a.png") (Or.inl rfl)

theorem createContainer_mem (s : StorageState) (c : String) :
    c ∈ (s.createContainer c).containers := by
  unfold StorageState.createContainer
  by_cases h : c ∈ s.containers <;> simp [h]

theorem createContainer_idem (s : StorageState) (c : String) :
    (s.createContainer c).createContainer c = s.createContainer c := by
  unfold StorageState.createContainer
  by_cases h : c ∈ s.containers <;> simp [h]

theorem createContainer_of_mem (s : StorageState) (c : String)
    (h : c ∈ s.containers) : s.createContainer c = s := by
  unfold StorageState.createContainer
  simp [h]

/-- C4: on every successful call, the SDK trace shows that the container
ensured before the upload is the fixed, hard-coded `"snapmap-blob"` (never
derived from the inputs), that the create-if-absent call requests
`access: "blob"`, and that it completes before the upload; moreover the
service-side create-if-absent is idempotent: creating an already-present
container changes nothing, and after the call the container exists. -/
theorem C4_container_bootstrap {σ : Type} (svc : Service σ) (env : Env)
    (st : σ) (buffer : BufferArg) (fileName : Option String) (u : String)
    (h : (uploadToAzure svc env st buffer fileName).result = .ok u) :
    (uploadToAzure svc env st buffer fileName).trace =
      [.createServiceClient (env.AZURE_STORAGE_CONNECTION.getD ""),
       .getContainerClient "snapmap-blob",
       .createIfNotExists "snapmap-blob" "blob",
       .getBlockBlobClient (fileName.getD ""),
       .uploadData (fileName.getD "") (buffer.getD [])] ∧
    CONTAINER_NAME = "snapmap-blob" ∧
    (∀ (s : StorageState) (c : String),
      (s.createContainer c).createContainer c = s.createContainer c) ∧
    (∀ (s : StorageState) (c : String), c ∈ s.containers →
      s.createContainer c = s) ∧
    (∀ (s : StorageState) (c : String), c ∈ (s.createContainer c).containers) := by
  obtain ⟨-, -, -, -, stf, heq⟩ :=
    uploadToAzure_ok_inv svc env st buffer fileName u h
  refine ⟨?_, rfl, createContainer_idem, createContainer_of_mem,
    createContainer_mem⟩
  rw [heq]
  rfl

theorem C4_container_bootstrap_witness :
    (uploadToAzure (azureService id) ⟨some "conn"⟩ (⟨[], []⟩ : StorageState)
        (some [7]) (some "a.png")).trace =
      [.createServiceClient "conn", .getContainerClient "snapmap-blob",
       .createIfNotExists "snapmap-blob" "blob", .getBlockBlobClient "a.png",
       .uploadData "a.png" [7]] :=
  (C4_container_bootstrap (azureService id) ⟨some "conn"⟩ ⟨[], []⟩ (some [7])
    (some "a.png") "conn/snapmap-blob/a.png" rfl).1

/-- C5: with a non-empty buffer and file name, a configured connection
string, and a service that succeeds on every call, `uploadToAzure` returns a
non-empty URL string that contains the configured container name
`"snapmap-blob"` and the supplied file name. -/
theorem C5_success_returns_url {σ : Type} (svc : Service σ) (env : Env)
    (st : σ) (bytes : List Nat) (name conn : String)
    (hn : name ≠ "") (he : env.AZURE_STORAGE_CONNECTION = some conn)
    (hc : conn ≠ "")
    (hcreate : ∀ s c a, ∃ s', svc.createIfNotExists s c a = .ok s')
    (hupload : ∀ s c n b, ∃ s', svc.uploadData s c n b = .ok s') :
    ∃ u, (uploadToAzure svc env st (some bytes) (some name)).result = .ok u ∧
      u ≠ "" ∧
      (∃ p q, u = p ++ CONTAINER_NAME ++ q) ∧
      (∃ p q, u = p ++ name ++ q) := by
  have hf : strTruthy (some name) = true := by simp [strTruthy, hn]
  have he' : strTruthy env.AZURE_STORAGE_CONNECTION = true := by
    rw [he]; simp [strTruthy, hc]
  rw [uploadToAzure_valid_eq svc env st (some bytes) (some name) rfl hf he']
  obtain ⟨st₁, h₁⟩ := hcreate st CONTAINER_NAME "blob"
  obtain ⟨st₂, h₂⟩ :=
    hupload st₁ CONTAINER_NAME ((some name).getD "") ((some bytes).getD [])
  rw [uploadBody_ok svc st st₁ st₂ _ _ _ h₁ h₂]
  refine ⟨_, rfl, ?_, ?_, ?_⟩
  · intro hu
    have hlen := congrArg String.length hu
    simp only [blobUrl, String.length_append] at hlen
    have h1 : String.length "/" = 1 := by decide
    have h0 : String.length "" = 0 := by decide
    rw [h1, h0] at hlen
    omega
  · exact ⟨svc.endpointOf (env.AZURE_STORAGE_CONNECTION.getD "") ++ "/",
      "/" ++ name, by
        simp only [blobUrl, String.append_assoc, Option.getD_some]⟩
  · exact ⟨svc.endpointOf (env.AZURE_STORAGE_CONNECTION.getD "") ++ "/" ++
      CONTAINER_NAME ++ "/", "", by
        simp only [blobUrl, String.append_assoc, String.append_empty,
          Option.getD_some]⟩

theorem C5_success_returns_url_witness :
    ∃ u, (uploadToAzure (azureService id) ⟨some "conn"⟩
        (⟨[], []⟩ : StorageState) (some [1]) (some "a.png")).result = .ok u ∧
      u ≠ "" ∧
      (∃ p q, u = p ++ CONTAINER_NAME ++ q) ∧
      (∃ p q, u = p ++ "a.png" ++ q) :=
  C5_success_returns_url (azureService id) ⟨some "conn"⟩ ⟨[], []⟩ [1]
    "a.png" "conn" (by decide) rfl (by decide)
    (fun s c _ => ⟨s.createContainer c, rfl⟩)
    (fun s c n b => ⟨s.putBlob c n b, rfl⟩)

/-- C10: the returned URL is a deterministic function of the environment and
the file name only — it does not depend on the buffer content or on the
remote storage state, so two successful calls with the same file name under
the same environment return equal URLs even with different buffers. -/
theorem C10_url_independent_of_buffer {σ : Type} (svc : Service σ)
    (env : Env) (st₁ st₂ : σ) (b₁ b₂ : BufferArg) (fileName : Option String)
    (u₁ u₂ : String)
    (h₁ : (uploadToAzure svc env st₁ b₁ fileName).result = .ok u₁)
    (h₂ : (uploadToAzure svc env st₂ b₂ fileName).result = .ok u₂) :
    u₁ = u₂ := by
  obtain ⟨-, -, -, hu₁, -⟩ := uploadToAzure_ok_inv svc env st₁ b₁ fileName u₁ h₁
  obtain ⟨-, -, -, hu₂, -⟩ := uploadToAzure_ok_inv svc env st₂ b₂ fileName u₂ h₂
  rw [hu₁, hu₂]

theorem C10_url_independent_of_buffer_witness :
    "conn/snapmap-blob/a.png" = "conn/snapmap-blob/a.png" :=
  C10_url_independent_of_buffer (azureService id) ⟨some "conn"⟩
    (⟨[], []⟩ : StorageState) ⟨["other"], []⟩ (some [1]) (some [2, 3])
    (some "a.png") "conn/snapmap-blob/a.png" "conn/snapmap-blob/a.png" rfl rfl

/-- C7: for every call that reaches the SDK, a failure of the
container-creation call or of the upload call is propagated to the caller
with its payload unchanged, and each network call is attempted at most once
(the container-creation call exactly once; the upload call exactly once when
container creation succeeded, and not at all when it failed). -/
theorem C7_error_propagation_single_attempt {σ : Type} (svc : Service σ)
    (env : Env) (st : σ) (buffer : BufferArg) (fileName : Option String)
    (hb : bufferTruthy buffer = true) (hf : strTruthy fileName = true)
    (he : strTruthy env.AZURE_STORAGE_CONNECTION = true) :
    ((uploadToAzure svc env st buffer fileName).trace.countP
        Event.isCreateContainer) = 1 ∧
    (∀ e, svc.createIfNotExists st CONTAINER_NAME "blob" = .error e →
      (uploadToAzure svc env st buffer fileName).result = .error (.sdkError e) ∧
      ((uploadToAzure svc env st buffer fileName).trace.countP
        Event.isUpload) = 0) ∧
    (∀ st₁ e, svc.createIfNotExists st CONTAINER_NAME "blob" = .ok st₁ →
      svc.uploadData st₁ CONTAINER_NAME (fileName.getD "") (buffer.getD []) =
        .error e →
      (uploadToAzure svc env st buffer fileName).result = .error (.sdkError e) ∧
      ((uploadToAzure svc env st buffer fileName).trace.countP
        Event.isUpload) = 1) ∧
    (∀ st₁ st₂, svc.createIfNotExists st CONTAINER_NAME "blob" = .ok st₁ →
      svc.uploadData st₁ CONTAINER_NAME (fileName.getD "") (buffer.getD []) =
        .ok st₂ →
      ((uploadToAzure svc env st buffer fileName).trace.countP
        Event.isUpload) = 1) := by
  rw [uploadToAzure_valid_eq svc env st buffer fileName hb hf he]
  rcases hc : svc.createIfNotExists st CONTAINER_NAME "blob" with e | st₁
  · rw [uploadBody_create_error svc st _ _ _ e hc]
    refine ⟨by simp [List.countP_cons, Event.isCreateContainer], ?_, ?_, ?_⟩
    · intro e' he'
      cases he'
      exact ⟨rfl, by simp [List.countP_cons, Event.isUpload]⟩
    · intro st₁ e' hok
      cases hok
    · intro st₁ st₂ hok
      cases hok
  · rcases hu : svc.uploadData st₁ CONTAINER_NAME (fileName.getD "")
        (buffer.getD []) with e | st₂
    · rw [uploadBody_upload_error svc st st₁ _ _ _ e hc hu]
      refine ⟨by simp [List.countP_cons, Event.isCreateContainer], ?_, ?_, ?_⟩
      · intro e' he'
        cases he'
      · intro st₁' e' hok hu'
        cases hok
        rw [hu] at hu'
        cases hu'
        exact ⟨rfl, by simp [List.countP_cons, Event.isUpload]⟩
      · intro st₁' st₂' hok hu'
        cases hok
        rw [hu] at hu'
        cases hu'
    · rw [uploadBody_ok svc st st₁ st₂ _ _ _ hc hu]
      refine ⟨by simp [List.countP_cons, Event.isCreateContainer], ?_, ?_, ?_⟩
      · intro e' he'
        cases he'
      · intro st₁' e' hok hu'
        cases hok
        rw [hu] at hu'
        cases hu'
      · intro st₁' st₂' hok hu'
        simp [List.countP_cons, Event.isUpload]

theorem C7_error_propagation_single_attempt_witness :
    (uploadToAzure failingCreateService ⟨some "conn"⟩ () (some [1])
      (some "a.png")).result = .error (.sdkError "create failed") :=
  ((C7_error_propagation_single_attempt failingCreateService ⟨some "conn"⟩ ()
    (some [1]) (some "a.png") rfl (by decide) rfl).2.1 "create failed" rfl).1

theorem create_mem_of_upload_split_three (conn : String) (pre post : List Event)
    (n : String) (b : List Nat)
    (h : pre ++ Event.uploadData n b :: post =
      [.createServiceClient conn, .getContainerClient CONTAINER_NAME,
       .createIfNotExists CONTAINER_NAME "blob"]) :
    Event.createIfNotExists CONTAINER_NAME "blob" ∈ pre := by
  rcases pre with _ | ⟨a, _ | ⟨c, _ | ⟨d, rest⟩⟩⟩ <;> simp_all

theorem create_mem_of_upload_split_five (conn name : String) (bytes : List Nat)
    (pre post : List Event) (n : String) (b : List Nat)
    (h : pre ++ Event.uploadData n b :: post =
      [.createServiceClient conn, .getContainerClient CONTAINER_NAME,
       .createIfNotExists CONTAINER_NAME "blob", .getBlockBlobClient name,
       .uploadData name bytes]) :
    Event.createIfNotExists CONTAINER_NAME "blob" ∈ pre := by
  rcases pre with _ | ⟨a, _ | ⟨c, _ | ⟨d, _ | ⟨e, _ | ⟨g, rest⟩⟩⟩⟩⟩ <;>
    simp_all

/-- C8: in every invocation (whatever the inputs, the environment and the
service outcomes), the SDK trace is a prefix of the fixed sequence: create
the service client from the connection string, get the container client of
the fixed container, ensure the container exists with `access: "blob"`, get
the block-blob client, upload the buffer; in particular whenever an upload
event occurs in the trace, the container-ensure call occurs strictly
before it. -/
theorem C8_sdk_call_order {σ : Type} (svc : Service σ) (env : Env) (st : σ)
    (buffer : BufferArg) (fileName : Option String) :
    ((uploadToAzure svc env st buffer fileName).trace = [] ∨
     (∃ conn, (uploadToAzure svc env st buffer fileName).trace =
       [.createServiceClient conn, .getContainerClient CONTAINER_NAME,
        .createIfNotExists CONTAINER_NAME "blob"]) ∨
     (∃ conn name bytes, (uploadToAzure svc env st buffer fileName).trace =
       [.createServiceClient conn, .getContainerClient CONTAINER_NAME,
        .createIfNotExists CONTAINER_NAME "blob", .getBlockBlobClient name,
        .uploadData name bytes])) ∧
    (∀ pre n b post,
      (uploadToAzure svc env st buffer fileName).trace =
        pre ++ Event.uploadData n b :: post →
      Event.createIfNotExists CONTAINER_NAME "blob" ∈ pre) := by
  cases hb : bufferTruthy buffer
  · rw [uploadToAzure_guard_fail svc env st buffer fileName (Or.inl hb)]
    exact ⟨Or.inl rfl, fun pre n b post h => absurd h (by simp)⟩
  · cases hf : strTruthy fileName
    · rw [uploadToAzure_guard_fail svc env st buffer fileName (Or.inr hf)]
      exact ⟨Or.inl rfl, fun pre n b post h => absurd h (by simp)⟩
    · cases he : strTruthy env.AZURE_STORAGE_CONNECTION
      · rw [uploadToAzure_env_fail svc env st buffer fileName hb hf he]
        exact ⟨Or.inl rfl, fun pre n b post h => absurd h (by simp)⟩
      · rw [uploadToAzure_valid_eq svc env st buffer fileName hb hf he]
        rcases hc : svc.createIfNotExists st CONTAINER_NAME "blob" with e | st₁
        · rw [uploadBody_create_error svc st _ _ _ e hc]
          exact ⟨Or.inr (Or.inl ⟨_, rfl⟩),
            fun pre n b post h =>
              create_mem_of_upload_split_three _ pre post n b h.symm⟩
        · rcases hu : svc.uploadData st₁ CONTAINER_NAME (fileName.getD "")
              (buffer.getD []) with e | st₂
          · rw [uploadBody_upload_error svc st st₁ _ _ _ e hc hu]
            exact ⟨Or.inr (Or.inr ⟨_, _, _, rfl⟩),
              fun pre n b post h =>
                create_mem_of_upload_split_five _ _ _ pre post n b h.symm⟩
          · rw [uploadBody_ok svc st st₁ st₂ _ _ _ hc hu]
            exact ⟨Or.inr (Or.inr ⟨_, _, _, rfl⟩),
              fun pre n b post h =>
                create_mem_of_upload_split_five _ _ _ pre post n b h.symm⟩

theorem getBlob_putBlob (st : StorageState) (c n : String) (b : List Nat) :
    (st.putBlob c n b).getBlob c n = some b := by
  simp [StorageState.putBlob, StorageState.getBlob, List.find?]

/-- C6: uploading `b₁` and then `b₂` under the same file name (against the
always-successful storage service) yields the same URL from both calls, and
afterwards the content retrievable under that name in the fixed container is
`b₂` — the second upload overwrites the first. -/
theorem C6_overwrite_same_url (f : String → String) (env : Env)
    (st : StorageState) (b₁ b₂ : List Nat) (name : String)
    (hn : name ≠ "") (he : strTruthy env.AZURE_STORAGE_CONNECTION = true)
    (_hb : b₁ ≠ b₂) :
    ∃ u,
      (uploadToAzure (azureService f) env st (some b₁) (some name)).result =
        .ok u ∧
      (uploadToAzure (azureService f) env
        (uploadToAzure (azureService f) env st (some b₁) (some name)).state
        (some b₂) (some name)).result = .ok u ∧
      ((uploadToAzure (azureService f) env
        (uploadToAzure (azureService f) env st (some b₁) (some name)).state
        (some b₂) (some name)).state).getBlob CONTAINER_NAME name =
        some b₂ := by
  have hf : strTruthy (some name) = true := by simp [strTruthy, hn]
  have e₁ : uploadToAzure (azureService f) env st (some b₁) (some name) =
      ⟨.ok (blobUrl (f (env.AZURE_STORAGE_CONNECTION.getD ""))
          CONTAINER_NAME name),
       [.createServiceClient (env.AZURE_STORAGE_CONNECTION.getD ""),
        .getContainerClient CONTAINER_NAME,
        .createIfNotExists CONTAINER_NAME "blob", .getBlockBlobClient name,
        .uploadData name b₁],
       (st.createContainer CONTAINER_NAME).putBlob CONTAINER_NAME name b₁⟩ := by
    rw [uploadToAzure_valid_eq (azureService f) env st (some b₁) (some name)
      rfl hf he]
    exact uploadBody_ok (azureService f) st _ _ _ _ _ rfl rfl
  have e₂ : uploadToAzure (azureService f) env
      ((st.createContainer CONTAINER_NAME).putBlob CONTAINER_NAME name b₁)
      (some b₂) (some name) =
      ⟨.ok (blobUrl (f (env.AZURE_STORAGE_CONNECTION.getD ""))
          CONTAINER_NAME name),
       [.createServiceClient (env.AZURE_STORAGE_CONNECTION.getD ""),
        .getContainerClient CONTAINER_NAME,
        .createIfNotExists CONTAINER_NAME "blob", .getBlockBlobClient name,
        .uploadData name b₂],
       ((((st.createContainer CONTAINER_NAME).putBlob CONTAINER_NAME name
          b₁).createContainer CONTAINER_NAME).putBlob CONTAINER_NAME name
          b₂)⟩ := by
    rw [uploadToAzure_valid_eq (azureService f) env _ (some b₂) (some name)
      rfl hf he]
    exact uploadBody_ok (azureService f) _ _ _ _ _ _ rfl rfl
  refine ⟨blobUrl (f (env.AZURE_STORAGE_CONNECTION.getD ""))
    CONTAINER_NAME name, ?_, ?_, ?_⟩
  · rw [e₁]
  · simp only [e₁]
    rw [e₂]
  · simp only [e₁, e₂]
    exact getBlob_putBlob _ _ _ _

theorem C6_overwrite_same_url_witness :
    ∃ u,
      (uploadToAzure (azureService id) ⟨some "conn"⟩ (⟨[], []⟩ : StorageState)
        (some [1]) (some "a.png")).result = .ok u ∧
      (uploadToAzure (azureService id) ⟨some "conn"⟩
        (uploadToAzure (azureService id) ⟨some "conn"⟩
          (⟨[], []⟩ : StorageState) (some [1]) (some "a.png")).state
        (some [2]) (some "a.png")).result = .ok u ∧
      ((uploadToAzure (azureService id) ⟨some "conn"⟩
        (uploadToAzure (azureService id) ⟨some "conn"⟩
          (⟨[], []⟩ : StorageState) (some [1]) (some "a.png")).state
        (some [2]) (some "a.png")).state).getBlob CONTAINER_NAME "a.png" =
        some [2] :=
  C6_overwrite_same_url id ⟨some "conn"⟩ ⟨[], []⟩ [1] [2] "a.png"
    (by decide) rfl (by decide)
